import Mathlib

/-!
Verification of ktunnel, `pkg/k8s/common.go`.

A shallow embedding of the resource builders, the sidecar presence check and
the readiness poller of `pkg/k8s/common.go`, followed by the properties that
are proved about them.

Modelling conventions
* Go `string` is Lean `String`; `==` on strings is equality of the strings, and
  `strings.HasPrefix` compares character by character (on well-formed UTF-8 this
  is the byte-wise comparison of Go).
* The goroutine of `waitForReady` is a list of events in program order, driven
  by the answers of the successive list calls.
* Go `int`, `int32`, `int64` are `Int`; where the width matters the wrap-around
  is written out (`wrapInt32`).
* `map[string]string` literals are association lists in the order of the
  source literal (their keys are distinct constants).
* A pointer that is always non-nil in the source (`&replicas`) is an `Option`
  holding the pointee.
* Kubernetes API structures carry the fields that the source file reads or
  writes; every other field keeps its zero value in the source and is left out.
* The package-level variable `Verbose` is an explicit argument.
-/

namespace Ktunnel

/-! ## Data model (the Kubernetes API types used by the file) -/

/-- The quantity type `resource.Quantity`, as far as `SetMilli` and `SetScaled` fill
it: the number `value * 10 ^ scale`. -/
structure Quantity where
  value : Int
  scale : Int
  deriving DecidableEq, Repr

/-- The scale constants `resource.Milli`, `resource.Mega`, `resource.Giga`. -/
def Milli : Int := -3

/-- The scale constant `resource.Mega`. -/
def Mega : Int := 6

/-- The scale constant `resource.Giga`. -/
def Giga : Int := 9

/-- The method `Quantity.SetMilli`: the quantity becomes `value` thousandths. -/
def Quantity.SetMilli (_q : Quantity) (value : Int) : Quantity :=
  { value := value, scale := Milli }

/-- The method `Quantity.SetScaled`: the quantity becomes `value * 10 ^ scale`. -/
def Quantity.SetScaled (_q : Quantity) (value : Int) (scale : Int) : Quantity :=
  { value := value, scale := scale }

/-- The number a quantity denotes, in whole units (cores, bytes). -/
def Quantity.toRat (q : Quantity) : ℚ := (q.value : ℚ) * (10 : ℚ) ^ q.scale

/-- The number a quantity denotes, in thousandths of a unit (`MilliValue`). -/
def Quantity.MilliValue (q : Quantity) : ℚ := q.toRat * 1000

/-- The type `apiv1.ResourceList`: resource name to quantity. -/
abbrev ResourceList := List (String × Quantity)

/-- The type `apiv1.ResourceRequirements`. -/
structure ResourceRequirements where
  Limits : ResourceList
  Requests : ResourceList
  deriving DecidableEq, Repr

/-- The type `apiv1.Container`. -/
structure Container where
  Name : String
  Image : String
  Command : List String
  Args : List String
  Resources : ResourceRequirements
  deriving DecidableEq, Repr

/-- The type `apiv1.PodSpec`. -/
structure PodSpec where
  Containers : List Container
  deriving DecidableEq, Repr

/-- A Go `map[string]string`. -/
abbrev Labels := List (String × String)

/-- The type `metav1.TypeMeta`. -/
structure TypeMeta where
  Kind : String
  APIVersion : String
  deriving DecidableEq, Repr

/-- The type `metav1.ObjectMeta`. -/
structure ObjectMeta where
  Name : String
  Namespace : String
  Labels : Labels
  deriving DecidableEq, Repr

/-- The type `metav1.LabelSelector`. -/
structure LabelSelector where
  MatchLabels : Labels
  deriving DecidableEq, Repr

/-- The type `apiv1.PodTemplateSpec`. -/
structure PodTemplateSpec where
  ObjectMeta : ObjectMeta
  Spec : PodSpec
  deriving DecidableEq, Repr

/-- The type `appsv1.DeploymentSpec`; `Replicas` and `Selector` are pointers. -/
structure DeploymentSpec where
  Replicas : Option Int
  Selector : Option LabelSelector
  Template : PodTemplateSpec
  deriving DecidableEq, Repr

/-- The type `appsv1.Deployment`. -/
structure Deployment where
  TypeMeta : TypeMeta
  ObjectMeta : ObjectMeta
  Spec : DeploymentSpec
  deriving DecidableEq, Repr

/-- The type `intstr.IntOrString`. -/
inductive IntOrString where
  | int (v : Int)
  | str (s : String)
  deriving DecidableEq, Repr

/-- The type `apiv1.ServicePort`. -/
structure ServicePort where
  Name : String
  Protocol : String
  Port : Int
  TargetPort : IntOrString
  NodePort : Int
  deriving DecidableEq, Repr

/-- The type `apiv1.ServiceSpec`. -/
structure ServiceSpec where
  Ports : List ServicePort
  Selector : Labels
  deriving DecidableEq, Repr

/-- The type `apiv1.Service`. -/
structure Service where
  TypeMeta : TypeMeta
  ObjectMeta : ObjectMeta
  Spec : ServiceSpec
  deriving DecidableEq, Repr

/-! ## `hasSidecar` -/

/-- The loop of `hasSidecar` over the containers that are left. -/
def hasSidecarLoop (image : String) : List Container → Bool
  | [] => false
  | c :: rest => if c.Image = image then true else hasSidecarLoop image rest

/-- The function `hasSidecar` of `common.go`. -/
def hasSidecar (podSpec : PodSpec) (image : String) : Bool :=
  hasSidecarLoop image podSpec.Containers

/-! ## `strconv.FormatInt` and decimal parsing -/

/-- The digit loop of `strconv.FormatInt` (`formatBits`): the digits of `u` in `base`,
least significant first, are pushed in front of `acc`. The first argument bounds the
number of digits. -/
def formatBits (base : Nat) : Nat → Nat → List Char → List Char
  | 0, _, acc => acc
  | fuel + 1, u, acc =>
    if u < base then Nat.digitChar u :: acc
    else formatBits base fuel (u / base) (Nat.digitChar (u % base) :: acc)

/-- The function `strconv.FormatInt`: the rendering of `i` in `base`, with a leading
minus sign for a negative number. -/
def FormatInt (i : Int) (base : Nat) : String :=
  String.mk ((if i < 0 then ['-'] else []) ++ formatBits base (i.natAbs + 1) i.natAbs [])

/-- The value of a decimal digit character. -/
def digitValue (c : Char) : Option Nat :=
  if 48 ≤ c.toNat ∧ c.toNat ≤ 57 then some (c.toNat - 48) else none

/-- Reads decimal digits from the left, starting from the value `acc`. -/
def parseDigits : List Char → Nat → Option Nat
  | [], acc => some acc
  | c :: cs, acc =>
    match digitValue c with
    | none => none
    | some d => parseDigits cs (acc * 10 + d)

/-- Reads a non-empty run of decimal digits as a natural number. -/
def parseDecimalNat (ds : List Char) : Option Nat :=
  if ds = [] then none else parseDigits ds 0

/-- Reads a string as a decimal integer: an optional minus sign and then at least one
decimal digit. This is the reading against which the rendering of the port is compared. -/
def parseDecimal (s : String) : Option Int :=
  match s.data with
  | '-' :: ds => (parseDecimalNat ds).map (fun (n : Nat) => -(Int.ofNat n))
  | ds => (parseDecimalNat ds).map (fun (n : Nat) => Int.ofNat n)

/-! ## The builders `newContainer`, `newDeployment`, `newService` -/

/-- The zero value `resource.Quantity{}`. -/
def Quantity.zero : Quantity := { value := 0, scale := 0 }

/-- The function `newContainer` of `common.go`; the package variable `Verbose` is the
first argument. -/
def newContainer (Verbose : Bool) (port : Int) (image : String) : Container :=
  let args := ["server", "-p", FormatInt port 10]
  let args := if Verbose == true then args ++ ["-v"] else args
  let cpuRequest := Quantity.zero.SetMilli 500
  let cpuLimit := Quantity.zero.SetMilli 1000
  let memRequest := Quantity.zero.SetScaled 100 Mega
  let memLimit := Quantity.zero.SetScaled 1 Giga
  { Name := "ktunnel"
    Image := image
    Command := ["/ktunnel/ktunnel"]
    Args := args
    Resources :=
      { Requests := [("cpu", cpuRequest), ("memory", memRequest)]
        Limits := [("cpu", cpuLimit), ("memory", memLimit)] } }

/-- The function `newDeployment` of `common.go`; the package variable `Verbose`, read by
`newContainer`, is the first argument. -/
def newDeployment (Verbose : Bool) (namespace_ name : String) (port : Int) (image : String) :
    Deployment :=
  let replicas : Int := 1
  let co := newContainer Verbose port image
  { TypeMeta := { Kind := "", APIVersion := "" }
    ObjectMeta :=
      { Name := name
        Namespace := namespace_
        Labels := [("app.kubernetes.io/name", name), ("app.kubernetes.io/instance", name)] }
    Spec :=
      { Replicas := some replicas
        Selector := some
          { MatchLabels :=
              [("app.kubernetes.io/name", name), ("app.kubernetes.io/instance", name)] }
        Template :=
          { ObjectMeta :=
              { Name := ""
                Namespace := ""
                Labels :=
                  [("app.kubernetes.io/name", name), ("app.kubernetes.io/instance", name)] }
            Spec := { Containers := [co] } } } }

/-- The function `newService` of `common.go`. -/
def newService (namespace_ name : String) (ports : List ServicePort) : Service :=
  { TypeMeta := { Kind := "Service", APIVersion := "" }
    ObjectMeta := { Name := name, Namespace := namespace_, Labels := [] }
    Spec :=
      { Ports := ports
        Selector := [("app.kubernetes.io/name", name), ("app.kubernetes.io/instance", name)] } }

/-- Looks a resource name up in a resource list (Go map indexing). -/
def ResourceList.get (l : ResourceList) (key : String) : Option Quantity :=
  (l.find? (fun kv => kv.1 == key)).map (fun kv => kv.2)

/-! ## The readiness poller `waitForReady` -/

/-- An instant of `time.Time` as the wall clock reads it: seconds since the epoch and
nanoseconds within the second. Timestamps delivered by the cluster carry no monotonic
reading, so `After` compares wall-clock instants. -/
structure Time where
  sec : Int
  nsec : Int
  deriving DecidableEq, Repr

/-- The method `Time.After`: `t` is strictly later than `u`. -/
def Time.After (t u : Time) : Bool :=
  decide (t.sec > u.sec) || (decide (t.sec = u.sec) && decide (t.nsec > u.nsec))

/-- The method `Time.Before`: `t` is strictly earlier than `u`. -/
def Time.Before (t u : Time) : Bool :=
  decide (t.sec < u.sec) || (decide (t.sec = u.sec) && decide (t.nsec < u.nsec))

/-- The type `apiv1.PodPhase`, a string. -/
abbrev PodPhase := String

/-- The constant `apiv1.PodRunning`. -/
def PodRunning : PodPhase := "Running"

/-- The type `apiv1.PodStatus`. -/
structure PodStatus where
  Phase : PodPhase
  deriving DecidableEq, Repr

/-- The type `apiv1.Pod`, with the promoted fields `Name` and `CreationTimestamp` of its
object metadata. -/
structure Pod where
  Name : String
  CreationTimestamp : Time
  Status : PodStatus
  deriving DecidableEq, Repr

/-- The function `strings.HasPrefix`: `s` is at least as long as `pre` and starts with it. -/
def HasPrefix (s pre : String) : Bool :=
  decide (pre.data.length ≤ s.data.length) && decide (s.data.take pre.data.length = pre.data)

/-- The conversion to `int32`: the value modulo `2 ^ 32` in the range
`-2 ^ 31 .. 2 ^ 31 - 1`. -/
def wrapInt32 (x : Int) : Int := (x + 2147483648) % 4294967296 - 2147483648

/-- The condition of the `if` at line 86: the three tests on one pod. -/
def podCounts (name : String) (ti : Time) (p : Pod) : Bool :=
  HasPrefix p.Name name && p.CreationTimestamp.After ti && decide (p.Status.Phase = PodRunning)

/-- The statement at lines 86 to 88: the counter after one pod has been looked at. -/
def countStep (name : String) (ti : Time) (p : Pod) (count : Int) : Int :=
  if podCounts name ti p then wrapInt32 (count + 1) else count

/-- The loop `for _, p := range pods.Items` at lines 85 to 93, entered with the counter
`count`: the counter when the loop is left, and whether `readyChan <- true` was
executed (after which the loop is left by `break`). -/
def rangeItems (name : String) (ti : Time) (numPods : Int) : List Pod → Int → Int × Bool
  | [], count => (count, false)
  | p :: rest, count =>
    let count1 := countStep name ti p count
    if count1 ≥ numPods then (count1, true) else rangeItems name ti numPods rest count1

/-- One poll on a listed snapshot: `count := int32(0)` and then the loop over the items. -/
def poll (name : String) (ti : Time) (numPods : Int) (items : List Pod) : Int × Bool :=
  rangeItems name ti numPods items 0

/-- What the goroutine does, in program order. A `send` is the statement
`readyChan <- true`; the receiver is taken to accept every value that is sent. -/
inductive Event where
  | list
  | send (v : Bool)
  | sleep (ms : Nat)
  | logError (err : String)
  | exit (code : Int)
  deriving DecidableEq, Repr

/-- The answer of `podsClient.List`: an error or the items of the pod list. -/
abbrev ListResult := Except String (List Pod)

/-- The control state of the goroutine: inside the endless `for`, or ended by
`os.Exit(1)`. The source has no other way out of the loop. -/
inductive PollerState where
  | Polling
  | Fatal
  deriving DecidableEq, Repr

/-- One iteration of the outer `for` at lines 78 to 95 on the answer `r` of the list
call: the events of the iteration and the state afterwards. -/
def iteration (name : String) (ti : Time) (numPods : Int) (r : ListResult) :
    List Event × PollerState :=
  match r with
  | .error err => ([Event.list, Event.logError err, Event.exit 1], PollerState.Fatal)
  | .ok items =>
    (Event.list :: ((if (poll name ti numPods items).2 then [Event.send true] else []) ++
      [Event.sleep 300]), PollerState.Polling)

/-- The goroutine started by `waitForReady`, observed for at most `n` iterations from
iteration number `i` on, where the `j`-th list call is answered by `env j`: the events
in program order. -/
def waitForReadyFrom (name : String) (ti : Time) (numPods : Int) (env : Nat → ListResult) :
    Nat → Nat → List Event
  | 0, _ => []
  | n + 1, i =>
    match iteration name ti numPods (env i) with
    | (evs, PollerState.Fatal) => evs
    | (evs, PollerState.Polling) => evs ++ waitForReadyFrom name ti numPods env n (i + 1)

/-- The function `waitForReady` of `common.go`, observed for its first `n` iterations. -/
def waitForReady (name : String) (ti : Time) (numPods : Int) (env : Nat → ListResult)
    (n : Nat) : List Event :=
  waitForReadyFrom name ti numPods env n 0

/-- The number of writes to `readyChan` in a run. -/
def sendCount (evs : List Event) : Nat :=
  evs.countP (fun e => match e with | Event.send _ => true | _ => false)

/-- The number of list calls in a run. -/
def listCount (evs : List Event) : Nat :=
  evs.countP (fun e => decide (e = Event.list))

/-- The number of pods of a snapshot that have the name prefix, were created strictly
after the threshold and are in phase Running. -/
def readyCount (name : String) (ti : Time) (items : List Pod) : Nat :=
  (items.filter (fun p =>
    HasPrefix p.Name name && p.CreationTimestamp.After ti &&
      decide (p.Status.Phase = PodRunning))).length

/-! ## The reference scenario -/

/-- The threshold of the reference scenario: the instant of the submission. -/
def submitted : Time := { sec := 1000, nsec := 0 }

/-- The pod `tun-abc-7f9d8` of the reference scenario, created after the submission, in
the given phase. -/
def tunPod (phase : PodPhase) : Pod :=
  { Name := "tun-abc-7f9d8", CreationTimestamp := { sec := 1001, nsec := 0 },
    Status := { Phase := phase } }

/-- A cluster in which the pod of the reference scenario is running at every list call. -/
def alwaysRunning : Nat → ListResult :=
  fun _ => Except.ok [tunPod PodRunning]

/-- A cluster that never lists a pod. -/
def alwaysEmpty : Nat → ListResult :=
  fun _ => Except.ok []

/-- A cluster in which the pod of the reference scenario is pending at the first list call
and running from the second list call on. -/
def pendingThenRunning : Nat → ListResult :=
  fun i => if i = 0 then Except.ok [tunPod "Pending"] else Except.ok [tunPod PodRunning]

/-! ## The cluster context: `getKubeConfig`, `getClients`, `getAllPods` -/

/-- The type `rest.Config`, as far as this file is concerned: the file it was built from. -/
structure RestConfig where
  Path : String
  deriving DecidableEq, Repr

/-- The type `kubernetes.Clientset`: a client set built from a configuration. -/
structure Clientset where
  Config : RestConfig
  deriving DecidableEq, Repr

/-- The type `v1.DeploymentInterface`: the handle `clientset.AppsV1().Deployments(ns)`. -/
structure DeploymentInterface where
  Clientset : Clientset
  Namespace : String
  deriving DecidableEq, Repr

/-- The type `v12.PodInterface`: the handle `clientset.CoreV1().Pods(ns)`. -/
structure PodInterface where
  Clientset : Clientset
  Namespace : String
  deriving DecidableEq, Repr

/-- The type `v12.ServiceInterface`: the handle `clientset.CoreV1().Services(ns)`. -/
structure ServiceInterface where
  Clientset : Clientset
  Namespace : String
  deriving DecidableEq, Repr

/-- The package-level variables `deploymentOnce`, `deploymentsClient`, `podsClient` and
`svcClient`; a handle that has not been assigned is nil. -/
structure Clients where
  deploymentOnce : Bool
  deploymentsClient : Option DeploymentInterface
  podsClient : Option PodInterface
  svcClient : Option ServiceInterface
  deriving DecidableEq, Repr

/-- The package-level variables when the process starts. -/
def Clients.initial : Clients :=
  { deploymentOnce := false, deploymentsClient := none, podsClient := none, svcClient := none }

/-- How a call ends: it returns a value to its caller, the process is ended by
`os.Exit`, or a nil pointer is dereferenced (a nil configuration handed to the client
constructor, a nil handle on which a method is called) and the process ends in a panic. -/
inductive Outcome (α : Type) where
  | returned (v : α)
  | exited (code : Int)
  | panicked
  deriving DecidableEq, Repr

/-- The statements at lines 39 to 42 of `getKubeConfig`: the path handed to the config
builder, from the value `kconfig` of the environment variable `KUBECONFIG` and the home
directory `home`. The library function `filepath.Join` is the argument `Join`. -/
def kubeConfigPath (Join : List String → String) (kconfig home : String) : String :=
  if kconfig = "" ∧ home ≠ "" then Join [home, ".kube", "config"] else kconfig

/-- The function `getKubeConfig` of `common.go`. The library function
`clientcmd.BuildConfigFromFlags` is the argument `BuildConfigFromFlags`; the result is
the log output and the returned pointer. -/
def getKubeConfig (Join : List String → String)
    (BuildConfigFromFlags : String → String → Except String RestConfig)
    (kconfig home : String) : List Event × Outcome (Option RestConfig) :=
  match BuildConfigFromFlags "" (kubeConfigPath Join kconfig home) with
  | .error err =>
    ([Event.logError ("Failed getting kubernetes config: " ++ err)], Outcome.returned none)
  | .ok config => ([], Outcome.returned (some config))

/-- The function `getClients` of `common.go` on the package state `st`. The library
function `kubernetes.NewForConfig` is the argument `NewForConfig`, on configurations that
are not nil: it copies the configuration it is pointed to, so on the nil configuration
that `getKubeConfig` returns after a failure the call panics before any error is returned.
The package variable `kubeconfig` is an argument; the result is the log and exit events,
the package state afterwards and how the call ended. -/
def getClients (NewForConfig : RestConfig → Except String Clientset)
    (kubeconfig : Option RestConfig) (namespace_ : String) (st : Clients) :
    List Event × Clients × Outcome Unit :=
  if st.deploymentOnce then ([], st, Outcome.returned ())
  else
    match kubeconfig with
    | none => ([], st, Outcome.panicked)
    | some config =>
      match NewForConfig config with
      | .error err =>
        ([Event.logError ("Failed to get k8s client: " ++ err), Event.exit 1], st,
          Outcome.exited 1)
      | .ok clientset =>
        ([],
          { deploymentOnce := true
            deploymentsClient := some { Clientset := clientset, Namespace := namespace_ }
            podsClient := some { Clientset := clientset, Namespace := namespace_ }
            svcClient := some { Clientset := clientset, Namespace := namespace_ } },
          Outcome.returned ())

/-- The function `getAllPods` of `common.go` on the package state `st`; `listPods` is the
answer of the cluster to a list call on a pod handle. The returned value is the pair
`(pods, err)` of the source, an error standing for `(nil, err)`. -/
def getAllPods (NewForConfig : RestConfig → Except String Clientset)
    (kubeconfig : Option RestConfig) (listPods : PodInterface → ListResult)
    (namespace_ : String) (st : Clients) :
    List Event × Clients × Outcome (Except String (List Pod)) :=
  match getClients NewForConfig kubeconfig namespace_ st with
  | (evs, st1, Outcome.exited code) => (evs, st1, Outcome.exited code)
  | (evs, st1, Outcome.panicked) => (evs, st1, Outcome.panicked)
  | (evs, st1, Outcome.returned _) =>
    match st1.podsClient with
    | none => (evs, st1, Outcome.panicked)
    | some handle =>
      match listPods handle with
      | .error err => (evs ++ [Event.list], st1, Outcome.returned (Except.error err))
      | .ok pods => (evs ++ [Event.list], st1, Outcome.returned (Except.ok pods))

/-- A client constructor that accepts every configuration it is given. -/
def acceptingNewForConfig : RestConfig → Except String Clientset :=
  fun config => Except.ok { Config := config }

/-- A client constructor that rejects the configuration it is given, as the library does
for a configuration whose host is not a URL. -/
def rejectingNewForConfig : RestConfig → Except String Clientset :=
  fun _ => Except.error "host must be a URL or a host:port pair"

/-- The configuration of the reference scenario. -/
def scenarioConfig : RestConfig := { Path := "/home/dev/.kube/config" }

/-! ## The counter of one poll, value by value -/

/-- The values that the counter of the range loop at lines 85 to 93 takes, one per pod
looked at (after the `if` at line 86), until the loop is left at the end of the items or
by `break`. -/
def counterTrace (name : String) (ti : Time) (numPods : Int) : List Pod → Int → List Int
  | [], _ => []
  | p :: rest, count =>
    let count1 := countStep name ti p count
    if count1 ≥ numPods then [count1] else count1 :: counterTrace name ti numPods rest count1

/-- The answers of a cluster that lists the given snapshots one after the other, and no
pod afterwards. -/
def snapshots (xs : List (List Pod)) : Nat → ListResult :=
  fun i => Except.ok (xs.getD i [])

/-- A cluster in which the pod of the reference scenario is pending at the first list call
and whose second list call fails. -/
def pendingThenError : Nat → ListResult :=
  fun i => if i = 0 then Except.ok [tunPod "Pending"] else Except.error "connection refused"

/-- A stand-in for `filepath.Join` on paths that need no cleaning: the elements separated
by a slash. -/
def joinSlash : List String → String :=
  fun elems => String.intercalate "/" elems

/-- A config builder that finds no configuration file. -/
def failingBuildConfig : String → String → Except String RestConfig :=
  fun _ path => Except.error ("stat " ++ path ++ ": no such file or directory")

/-! ## Theorems -/

theorem hasSidecarLoop_iff (image : String) (cs : List Container) :
    hasSidecarLoop image cs = true ↔ ∃ c ∈ cs, c.Image = image := by
  induction cs with
  | nil => simp [hasSidecarLoop]
  | cons c rest ih =>
    by_cases h : c.Image = image
    · simp [hasSidecarLoop, h]
    · simp [hasSidecarLoop, h, ih]

/-- Claim C2. The function `hasSidecar` answers true exactly when some container of the
pod spec has an image equal, as a string, to the queried image; on an empty container
list it answers false for every image. -/
theorem hasSidecar_correct (podSpec : PodSpec) (image : String) :
    (hasSidecar podSpec image = true ↔ ∃ c ∈ podSpec.Containers, c.Image = image) ∧
    hasSidecar { Containers := [] } image = false := by
  exact ⟨hasSidecarLoop_iff image podSpec.Containers, rfl⟩

theorem formatBits_acc (base : Nat) (fuel : Nat) : ∀ (u : Nat) (acc : List Char),
    formatBits base fuel u acc = formatBits base fuel u [] ++ acc := by
  induction fuel with
  | zero => intro u acc; simp [formatBits]
  | succ fuel ih =>
    intro u acc
    by_cases h : u < base
    · simp [formatBits, h]
    · simp only [formatBits, h, if_false]
      rw [ih (u / base) (Nat.digitChar (u % base) :: acc), ih (u / base) [Nat.digitChar (u % base)]]
      simp

theorem parseDigits_append (xs ys : List Char) : ∀ a : Nat,
    parseDigits (xs ++ ys) a = (parseDigits xs a).bind (parseDigits ys) := by
  induction xs with
  | nil => intro a; simp [parseDigits]
  | cons c cs ih =>
    intro a
    simp only [List.cons_append, parseDigits]
    cases digitValue c with
    | none => simp
    | some d => simpa using ih (a * 10 + d)

theorem digitValue_digitChar (d : Nat) (h : d < 10) : digitValue (Nat.digitChar d) = some d := by
  interval_cases d <;> rfl

theorem digitChar_ne_minus (d : Nat) (h : d < 10) : Nat.digitChar d ≠ '-' := by
  interval_cases d <;> decide

theorem parseDigits_formatBits (fuel : Nat) : ∀ u : Nat, u < fuel →
    parseDigits (formatBits 10 fuel u []) 0 = some u := by
  induction fuel with
  | zero => intro u h; omega
  | succ fuel ih =>
    intro u hu
    by_cases h : u < 10
    · simp [formatBits, h, parseDigits, digitValue_digitChar u h]
    · have hdiv : u / 10 < fuel := by omega
      have hmod : u % 10 < 10 := Nat.mod_lt _ (by decide)
      simp only [formatBits, h, if_false]
      rw [formatBits_acc, parseDigits_append, ih _ hdiv]
      simp only [Option.some_bind, parseDigits, digitValue_digitChar _ hmod]
      congr 1
      omega

theorem formatBits_head (fuel : Nat) : ∀ (u : Nat) (acc : List Char),
    ∃ d rest, d < 10 ∧ formatBits 10 (fuel + 1) u acc = Nat.digitChar d :: rest := by
  induction fuel with
  | zero =>
    intro u acc
    by_cases h : u < 10
    · exact ⟨u, acc, h, by simp [formatBits, h]⟩
    · exact ⟨u % 10, acc, Nat.mod_lt _ (by decide), by simp [formatBits, h]⟩
  | succ fuel ih =>
    intro u acc
    by_cases h : u < 10
    · exact ⟨u, acc, h, by simp [formatBits, h]⟩
    · obtain ⟨d, rest, hd, heq⟩ := ih (u / 10) (Nat.digitChar (u % 10) :: acc)
      refine ⟨d, rest, hd, ?_⟩
      rw [← heq]
      conv_lhs => rw [formatBits]
      simp [h]

theorem parseDecimal_cons (c : Char) (rest : List Char) (h : c ≠ '-') :
    parseDecimal (String.mk (c :: rest)) =
      (parseDecimalNat (c :: rest)).map (fun (n : Nat) => Int.ofNat n) := by
  unfold parseDecimal
  split
  · rename_i ds heq
    simp at heq
    exact absurd heq.1 h
  · rfl

theorem parseDecimal_minus (ds : List Char) :
    parseDecimal (String.mk ('-' :: ds)) = (parseDecimalNat ds).map (fun (n : Nat) => -(Int.ofNat n)) := by
  rfl

theorem parseDecimal_FormatInt (i : Int) : parseDecimal (FormatInt i 10) = some i := by
  obtain ⟨d, rest, hd, heq⟩ := formatBits_head i.natAbs i.natAbs []
  have hparse := parseDigits_formatBits (i.natAbs + 1) i.natAbs (Nat.lt_succ_self _)
  have hnat : parseDecimalNat (formatBits 10 (i.natAbs + 1) i.natAbs []) = some i.natAbs := by
    unfold parseDecimalNat
    rw [if_neg (by rw [heq]; simp), hparse]
  by_cases hneg : i < 0
  · have : FormatInt i 10 = String.mk ('-' :: formatBits 10 (i.natAbs + 1) i.natAbs []) := by
      simp [FormatInt, hneg]
    rw [this, parseDecimal_minus, hnat]
    simp only [Option.map_some', Option.some.injEq, Int.ofNat_eq_coe]
    omega
  · have : FormatInt i 10 = String.mk (formatBits 10 (i.natAbs + 1) i.natAbs []) := by
      simp [FormatInt, hneg]
    rw [this, heq, parseDecimal_cons _ _ (digitChar_ne_minus d hd), ← heq, hnat]
    simp only [Option.map_some', Option.some.injEq, Int.ofNat_eq_coe]
    omega

/-- Claim C6. The metadata labels, the selector labels and the pod-template labels of
`newDeployment ns n port image` are all equal to the selector of `newService ns n ports`,
and that label set is the one with the two keys `app.kubernetes.io/name` and
`app.kubernetes.io/instance`, both bound to `n`; in particular for `n = "tun-abc"`. -/
theorem label_consistency (Verbose : Bool) (ns n : String) (port : Int) (image : String)
    (ports : List ServicePort) :
    (newDeployment Verbose ns n port image).ObjectMeta.Labels =
        (newService ns n ports).Spec.Selector ∧
    (newDeployment Verbose ns n port image).Spec.Selector =
        some { MatchLabels := (newService ns n ports).Spec.Selector } ∧
    (newDeployment Verbose ns n port image).Spec.Template.ObjectMeta.Labels =
        (newService ns n ports).Spec.Selector ∧
    (newService ns n ports).Spec.Selector =
        [("app.kubernetes.io/name", n), ("app.kubernetes.io/instance", n)] ∧
    (newService ns "tun-abc" ports).Spec.Selector =
        [("app.kubernetes.io/name", "tun-abc"), ("app.kubernetes.io/instance", "tun-abc")] :=
  ⟨rfl, rfl, rfl, rfl, rfl⟩

/-- Claim C7. For every integer port and every image, the arguments of
`newContainer port image` are `server`, `-p` and the decimal rendering `d` of the port,
followed by `-v` exactly when `Verbose` is set; reading `d` back as a decimal integer gives
the port; port 28688 is rendered `28688`; the command is `/ktunnel/ktunnel` and the image is
the given one. -/
theorem newContainer_args (port : Int) (image : String) :
    (newContainer false port image).Args = ["server", "-p", FormatInt port 10] ∧
    (newContainer true port image).Args = ["server", "-p", FormatInt port 10, "-v"] ∧
    parseDecimal (FormatInt port 10) = some port ∧
    (newContainer false 28688 image).Args = ["server", "-p", "28688"] ∧
    (∀ Verbose : Bool,
      (newContainer Verbose port image).Command = ["/ktunnel/ktunnel"] ∧
      (newContainer Verbose port image).Image = image) :=
  ⟨rfl, rfl, parseDecimal_FormatInt port, rfl, fun _ => ⟨rfl, rfl⟩⟩

/-- Claim C8. For every port, image and `Verbose` setting, the container built by
`newContainer` requests 500 thousandths of a core and is limited to 1000 thousandths,
requests `100 * 10 ^ 6` bytes of memory and is limited to `1 * 10 ^ 9` bytes; so each
request is at most its limit, and none of the four values depends on an input. -/
theorem newContainer_resources (Verbose : Bool) (port : Int) (image : String) :
    ∃ cpuRequest cpuLimit memRequest memLimit : Quantity,
      (newContainer Verbose port image).Resources.Requests =
        [("cpu", cpuRequest), ("memory", memRequest)] ∧
      (newContainer Verbose port image).Resources.Limits =
        [("cpu", cpuLimit), ("memory", memLimit)] ∧
      (newContainer Verbose port image).Resources.Requests.get "cpu" = some cpuRequest ∧
      (newContainer Verbose port image).Resources.Limits.get "cpu" = some cpuLimit ∧
      (newContainer Verbose port image).Resources.Requests.get "memory" = some memRequest ∧
      (newContainer Verbose port image).Resources.Limits.get "memory" = some memLimit ∧
      cpuRequest.MilliValue = 500 ∧ cpuLimit.MilliValue = 1000 ∧
      memRequest.toRat = 100 * 10 ^ 6 ∧ memLimit.toRat = 1 * 10 ^ 9 ∧
      cpuRequest.toRat ≤ cpuLimit.toRat ∧ memRequest.toRat ≤ memLimit.toRat := by
  refine ⟨Quantity.zero.SetMilli 500, Quantity.zero.SetMilli 1000,
    Quantity.zero.SetScaled 100 Mega, Quantity.zero.SetScaled 1 Giga,
    rfl, rfl, rfl, rfl, rfl, rfl, ?_, ?_, ?_, ?_, ?_, ?_⟩ <;>
  norm_num [Quantity.MilliValue, Quantity.toRat, Quantity.SetMilli, Quantity.SetScaled,
    Milli, Mega, Giga]

/-- Claim C9, refuted as stated. For the request of the reference scenario with a desired
replica count of 2, the workload built by `newDeployment` declares 1 replica, not 2:
the builder has no replica parameter. -/
theorem newDeployment_replicas_not_requested :
    (newDeployment false "ns1" "tun-abc" 28688 "example/tunnel:latest").Spec.Replicas = some 1 ∧
    (newDeployment false "ns1" "tun-abc" 28688 "example/tunnel:latest").Spec.Replicas ≠
      some 2 := by
  decide

/-- Claim C9, amended. For every requested replica count `r` and every namespace, name,
port and image, the workload built by `newDeployment` declares the replica count `r`
exactly when `r = 1`: the builder takes no replica count and always declares one replica. -/
theorem newDeployment_replicas_iff (r : Int) (Verbose : Bool) (ns n : String) (port : Int)
    (image : String) :
    (newDeployment Verbose ns n port image).Spec.Replicas = some r ↔ r = 1 := by
  simp only [newDeployment, Option.some.injEq]
  exact eq_comm

/-- Claim C10. For every namespace, name, port and image, the workload built by
`newDeployment` declares a desired replica count of exactly 1. -/
theorem newDeployment_replicas_one (Verbose : Bool) (ns n : String) (port : Int)
    (image : String) :
    (newDeployment Verbose ns n port image).Spec.Replicas = some 1 :=
  rfl

/-! ### The readiness poller -/

theorem wrapInt32_succ (c : Int) (h0 : 0 ≤ c) (h1 : c < 2147483647) :
    wrapInt32 (c + 1) = c + 1 := by
  unfold wrapInt32
  omega

theorem wrapInt32_le (x : Int) : wrapInt32 x ≤ 2147483647 := by
  unfold wrapInt32
  omega

theorem wrapInt32_succ_ne (c : Int) : wrapInt32 (c + 1) ≠ c := by
  unfold wrapInt32
  omega

theorem readyCount_cons (name : String) (ti : Time) (p : Pod) (rest : List Pod) :
    readyCount name ti (p :: rest) =
      (if podCounts name ti p then 1 else 0) + readyCount name ti rest := by
  unfold readyCount podCounts
  by_cases h : (HasPrefix p.Name name && p.CreationTimestamp.After ti &&
      decide (p.Status.Phase = PodRunning)) = true
  · simp [List.filter_cons, h]; omega
  · simp [List.filter_cons, h]

/-- Entered with a counter below a positive target, the loop over the items writes exactly
when the counter plus the number of ready pods among the items reaches the target. -/
theorem rangeItems_wrote_iff (name : String) (ti : Time) (numPods : Int)
    (hmax : numPods ≤ 2147483647) (items : List Pod) : ∀ c : Int, 0 ≤ c → c < numPods →
    ((rangeItems name ti numPods items c).2 = true ↔
      numPods ≤ c + (readyCount name ti items : Int)) := by
  induction items with
  | nil =>
    intro c _ hc
    simp [rangeItems, readyCount]
    omega
  | cons p rest ih =>
    intro c h0 hc
    rw [readyCount_cons]
    by_cases hp : podCounts name ti p = true
    · have hstep : countStep name ti p c = c + 1 := by
        simp [countStep, hp, wrapInt32_succ c h0 (by omega)]
      by_cases hge : c + 1 ≥ numPods
      · simp [rangeItems, hstep, hge, hp]
        omega
      · have := ih (c + 1) (by omega) (by omega)
        simp only [rangeItems, hstep, hge, if_false, this, hp, if_true]
        push_cast
        omega
    · have hstep : countStep name ti p c = c := by simp [countStep, hp]
      have hge : ¬ c ≥ numPods := by omega
      have := ih c h0 hc
      simp only [rangeItems, hstep, hge, if_false, this, hp]
      simp

/-- With a target that is not positive the first pod of a snapshot triggers the write. -/
theorem rangeItems_wrote_of_nonpos (name : String) (ti : Time) (numPods : Int)
    (hn : numPods ≤ 0) (p : Pod) (rest : List Pod) :
    (rangeItems name ti numPods (p :: rest) 0).2 = true := by
  have h : countStep name ti p 0 ≥ numPods := by
    unfold countStep
    split
    · rw [wrapInt32_succ 0 (le_refl _) (by decide)]; omega
    · omega
  simp [rangeItems, h]

/-- A target above the largest `int32` is never reached by the counter. -/
theorem rangeItems_not_wrote_of_big (name : String) (ti : Time) (numPods : Int)
    (hbig : 2147483647 < numPods) (items : List Pod) : ∀ c : Int, c ≤ 2147483647 →
    (rangeItems name ti numPods items c).2 = false := by
  induction items with
  | nil => intro c _; rfl
  | cons p rest ih =>
    intro c hc
    have hle : countStep name ti p c ≤ 2147483647 := by
      unfold countStep
      split
      · exact wrapInt32_le _
      · exact hc
    have hge : ¬ countStep name ti p c ≥ numPods := by omega
    simp only [rangeItems, hge, if_false]
    exact ih _ hle

/-- One poll, characterised for every `int32` target: it writes exactly when the snapshot
is not empty and holds at least `numPods` ready pods. -/
theorem poll_wrote_iff (name : String) (ti : Time) (numPods : Int)
    (hmax : numPods ≤ 2147483647) (items : List Pod) :
    ((poll name ti numPods items).2 = true ↔
      items ≠ [] ∧ numPods ≤ (readyCount name ti items : Int)) := by
  unfold poll
  by_cases hpos : 0 < numPods
  · rw [rangeItems_wrote_iff name ti numPods hmax items 0 (le_refl _) hpos]
    constructor
    · intro h
      refine ⟨?_, by omega⟩
      rintro rfl
      simp [readyCount] at h
      omega
    · intro h
      omega
  · cases items with
    | nil => simp [rangeItems]
    | cons p rest =>
      simp only [rangeItems_wrote_of_nonpos name ti numPods (by omega) p rest, true_iff]
      exact ⟨by simp, by omega⟩

theorem time_not_after_self (t : Time) : t.After t = false := by
  simp [Time.After]

theorem time_not_after_of_before (t u : Time) (h : t.Before u = true) : t.After u = false := by
  simp only [Time.Before, Time.After, Bool.or_eq_true, Bool.and_eq_true, decide_eq_true_eq,
    Bool.or_eq_false_iff, Bool.and_eq_false_iff, decide_eq_false_iff_not] at *
  omega

theorem waitForReadyFrom_succ (name : String) (ti : Time) (numPods : Int)
    (env : Nat → ListResult) (k : Nat) : ∀ s : Nat,
    (∀ j, j < k → ∃ items, env (s + j) = Except.ok items) →
    waitForReadyFrom name ti numPods env (k + 1) s =
      waitForReadyFrom name ti numPods env k s ++ (iteration name ti numPods (env (s + k))).1 := by
  induction k with
  | zero =>
    intro s _
    cases h : env s <;> simp [waitForReadyFrom, iteration, h]
  | succ k ih =>
    intro s hok
    obtain ⟨items, h0⟩ := hok 0 (Nat.succ_pos _)
    have hshift : ∀ j, j < k → ∃ items, env (s + 1 + j) = Except.ok items := by
      intro j hj
      have := hok (j + 1) (by omega)
      rwa [show s + (j + 1) = s + 1 + j by omega] at this
    have hrec := ih (s + 1) hshift
    rw [show s + 1 + k = s + (k + 1) by omega] at hrec
    have hs : env s = Except.ok items := by simpa using h0
    rw [waitForReadyFrom, hs]
    simp only [iteration]
    rw [hrec]
    conv_rhs => rw [waitForReadyFrom, hs]
    simp [iteration]

theorem sendCount_append (xs ys : List Event) :
    sendCount (xs ++ ys) = sendCount xs + sendCount ys := by
  simp [sendCount, List.countP_append]

theorem listCount_append (xs ys : List Event) :
    listCount (xs ++ ys) = listCount xs + listCount ys := by
  simp [listCount, List.countP_append]

/-- While every list call succeeds and no poll writes, a run of `k` iterations holds `k`
list calls and no write. -/
theorem waitForReady_quiet (name : String) (ti : Time) (numPods : Int)
    (env : Nat → ListResult) (k : Nat)
    (hq : ∀ i, i < k → ∃ items, env i = Except.ok items ∧ (poll name ti numPods items).2 = false) :
    sendCount (waitForReady name ti numPods env k) = 0 ∧
    listCount (waitForReady name ti numPods env k) = k := by
  induction k with
  | zero => exact ⟨rfl, rfl⟩
  | succ k ih =>
    have hprev := ih (fun i hi => hq i (by omega))
    obtain ⟨items, hk, hw⟩ := hq k (Nat.lt_succ_self _)
    have hsucc := waitForReadyFrom_succ name ti numPods env k 0
      (fun j hj => by
        obtain ⟨it, h, _⟩ := hq j (by omega)
        exact ⟨it, by simpa using h⟩)
    simp only [Nat.zero_add] at hsucc
    unfold waitForReady at *
    rw [hsucc, sendCount_append, listCount_append, hprev.1, hprev.2, hk]
    simp [iteration, hw, sendCount, listCount]

/-- Claim C1, refuted as stated. With the pod of the reference scenario running at every
list call and a target of 1, the first two iterations of `waitForReady` make two list calls
and two writes to `readyChan`: the poll after the first write lists and writes again. And
against a cluster that never lists a pod, three iterations make no write at all. -/
theorem waitForReady_polls_on_after_signal :
    waitForReady "tun-abc" submitted 1 alwaysRunning 2 =
      [Event.list, Event.send true, Event.sleep 300,
       Event.list, Event.send true, Event.sleep 300] ∧
    sendCount (waitForReady "tun-abc" submitted 1 alwaysRunning 2) = 2 ∧
    listCount (waitForReady "tun-abc" submitted 1 alwaysRunning 2) = 2 ∧
    sendCount (waitForReady "tun-abc" submitted 1 alwaysEmpty 3) = 0 := by
  decide

/-- Claim C1, amended. For every name prefix, threshold, `int32` target and sequence of
list answers: if each of the first `k` list calls succeeds with a snapshot that is empty or
holds fewer than `numPods` ready pods, then the first `k` iterations of `waitForReady` make
`k` list calls and no write to `readyChan`; and if the next list call succeeds with a
snapshot that is not empty and holds at least `numPods` ready pods, that iteration makes
one list call and one write of `true`, the only write of the first `k + 1` iterations. -/
theorem waitForReady_first_signal (name : String) (ti : Time) (numPods : Int)
    (env : Nat → ListResult) (k : Nat) (hmax : numPods ≤ 2147483647)
    (hq : ∀ i, i < k → ∃ items, env i = Except.ok items ∧
      ¬ (items ≠ [] ∧ numPods ≤ (readyCount name ti items : Int))) :
    sendCount (waitForReady name ti numPods env k) = 0 ∧
    listCount (waitForReady name ti numPods env k) = k ∧
    ∀ items, env k = Except.ok items → items ≠ [] →
      numPods ≤ (readyCount name ti items : Int) →
      waitForReady name ti numPods env (k + 1) =
        waitForReady name ti numPods env k ++
          [Event.list, Event.send true, Event.sleep 300] ∧
      sendCount (waitForReady name ti numPods env (k + 1)) = 1 ∧
      listCount (waitForReady name ti numPods env (k + 1)) = k + 1 := by
  have hq2 : ∀ i, i < k → ∃ items, env i = Except.ok items ∧
      (poll name ti numPods items).2 = false := by
    intro i hi
    obtain ⟨items, hok, hno⟩ := hq i hi
    refine ⟨items, hok, ?_⟩
    rw [← poll_wrote_iff name ti numPods hmax items] at hno
    simpa using hno
  have hquiet := waitForReady_quiet name ti numPods env k hq2
  refine ⟨hquiet.1, hquiet.2, ?_⟩
  intro items hk hne hcount
  have hw : (poll name ti numPods items).2 = true :=
    (poll_wrote_iff name ti numPods hmax items).2 ⟨hne, hcount⟩
  have hsucc := waitForReadyFrom_succ name ti numPods env k 0
    (fun j hj => by
      obtain ⟨it, h, _⟩ := hq j hj
      exact ⟨it, by simpa using h⟩)
  simp only [Nat.zero_add] at hsucc
  have hrun : waitForReady name ti numPods env (k + 1) =
      waitForReady name ti numPods env k ++
        [Event.list, Event.send true, Event.sleep 300] := by
    unfold waitForReady
    rw [hsucc, hk]
    simp [iteration, hw]
  refine ⟨hrun, ?_, ?_⟩
  · rw [hrun, sendCount_append, hquiet.1]
    rfl
  · rw [hrun, listCount_append, hquiet.2]
    rfl

/-- Witness of `waitForReady_first_signal`: the pod of the reference scenario is pending
at the first list call and running at the second; the first iteration makes no write and
the second makes the only write. -/
theorem waitForReady_first_signal_witness :
    sendCount (waitForReady "tun-abc" submitted 1 pendingThenRunning 1) = 0 ∧
    sendCount (waitForReady "tun-abc" submitted 1 pendingThenRunning 2) = 1 :=
  have h := waitForReady_first_signal "tun-abc" submitted 1 pendingThenRunning 1 (by decide)
    (fun i hi => by
      have hi0 : i = 0 := by omega
      subst hi0
      exact ⟨[tunPod "Pending"], rfl, by decide⟩)
  ⟨h.1, (h.2.2 [tunPod PodRunning] rfl (by decide) (by decide)).2.1⟩

/-- Claim C3. For every snapshot, name prefix, threshold and target `numPods`: if the poll
of `waitForReady` on the snapshot writes to `readyChan`, then the number of pods of the
snapshot whose name has the prefix, that were created strictly after the threshold and
whose phase is Running is at least `numPods`. -/
theorem poll_never_early (name : String) (ti : Time) (numPods : Int) (items : List Pod)
    (hw : (poll name ti numPods items).2 = true) :
    numPods ≤ (readyCount name ti items : Int) := by
  by_cases hmax : numPods ≤ 2147483647
  · exact ((poll_wrote_iff name ti numPods hmax items).1 hw).2
  · have := rangeItems_not_wrote_of_big name ti numPods (by omega) items 0 (by decide)
    unfold poll at hw
    rw [this] at hw
    exact absurd hw (by decide)

/-- Witness of `poll_never_early`: the poll on the running pod of the reference scenario
writes, and the snapshot holds one ready pod. -/
theorem poll_never_early_witness :
    (poll "tun-abc" submitted 1 [tunPod PodRunning]).2 = true ∧
    (1 : Int) ≤ (readyCount "tun-abc" submitted [tunPod PodRunning] : Int) :=
  ⟨by decide, poll_never_early "tun-abc" submitted 1 [tunPod PodRunning] (by decide)⟩

/-- Claim C4, refuted as stated. With the target 0 the empty snapshot holds at least
`numPods` ready pods (none are asked for), and the poll on it does not write: the test
`count >= numPods` stands inside the loop over the pods, which is not entered. -/
theorem poll_empty_snapshot_silent :
    (0 : Int) ≤ (readyCount "tun-abc" submitted [] : Int) ∧
    (poll "tun-abc" submitted 0 []).2 = false := by
  decide

/-- Claim C4, amended. For every name prefix, threshold and `int32` target `numPods`, and
every snapshot that lists at least one pod: if the number of pods of the snapshot that
satisfy the readiness criteria is at least `numPods`, the poll of `waitForReady` on the
snapshot writes `true` to `readyChan`. -/
theorem poll_signals_when_reached (name : String) (ti : Time) (numPods : Int)
    (items : List Pod) (hmax : numPods ≤ 2147483647) (hne : items ≠ [])
    (hcount : numPods ≤ (readyCount name ti items : Int)) :
    (poll name ti numPods items).2 = true ∧
    (iteration name ti numPods (Except.ok items)).1 =
      [Event.list, Event.send true, Event.sleep 300] := by
  have hw := (poll_wrote_iff name ti numPods hmax items).2 ⟨hne, hcount⟩
  exact ⟨hw, by simp [iteration, hw]⟩

/-- Witness of `poll_signals_when_reached`: the running pod of the reference scenario
with the target 1. -/
theorem poll_signals_when_reached_witness :
    (poll "tun-abc" submitted 1 [tunPod PodRunning]).2 = true :=
  (poll_signals_when_reached "tun-abc" submitted 1 [tunPod PodRunning]
    (by decide) (by decide) (by decide)).1

/-- Claim C5. Within a poll of `waitForReady` a pod changes the counter exactly when its
name has the prefix, its creation timestamp is strictly after the threshold and its phase
is Running, and then the counter becomes the `int32` successor (the successor itself below
the largest `int32`); a pod created at the threshold or before it leaves the counter as it
was, whatever its name and phase. -/
theorem countStep_criteria (name : String) (ti : Time) (p : Pod) (count : Int) :
    (countStep name ti p count ≠ count ↔
      (HasPrefix p.Name name = true ∧ p.CreationTimestamp.After ti = true ∧
        p.Status.Phase = PodRunning)) ∧
    ((HasPrefix p.Name name = true ∧ p.CreationTimestamp.After ti = true ∧
        p.Status.Phase = PodRunning) →
      countStep name ti p count = wrapInt32 (count + 1) ∧
      (0 ≤ count → count < 2147483647 → countStep name ti p count = count + 1)) ∧
    ((p.CreationTimestamp = ti ∨ p.CreationTimestamp.Before ti = true) →
      countStep name ti p count = count) := by
  have hcrit : podCounts name ti p = true ↔
      (HasPrefix p.Name name = true ∧ p.CreationTimestamp.After ti = true ∧
        p.Status.Phase = PodRunning) := by
    simp [podCounts, and_assoc]
  refine ⟨?_, ?_, ?_⟩
  · rw [← hcrit]
    by_cases h : podCounts name ti p = true
    · simp [countStep, h, wrapInt32_succ_ne]
    · simp [countStep, h]
  · intro h
    have hp := hcrit.2 h
    refine ⟨by simp [countStep, hp], fun h0 h1 => ?_⟩
    simp [countStep, hp, wrapInt32_succ count h0 h1]
  · intro h
    have hafter : p.CreationTimestamp.After ti = false := by
      rcases h with h | h
      · rw [h]; exact time_not_after_self ti
      · exact time_not_after_of_before _ _ h
    simp [countStep, podCounts, hafter]

/-- Witness of `countStep_criteria`: a running pod with the right name that was created
at the threshold itself leaves the counter at 0, and the pod of the reference scenario
moves it from 0 to 1. -/
theorem countStep_criteria_witness :
    countStep "tun-abc" submitted
      { Name := "tun-abc-7f9d8", CreationTimestamp := submitted,
        Status := { Phase := PodRunning } } 0 = 0 ∧
    countStep "tun-abc" submitted (tunPod PodRunning) 0 = 0 + 1 :=
  ⟨(countStep_criteria "tun-abc" submitted
      { Name := "tun-abc-7f9d8", CreationTimestamp := submitted,
        Status := { Phase := PodRunning } } 0).2.2 (Or.inl rfl),
   ((countStep_criteria "tun-abc" submitted (tunPod PodRunning) 0).2.1
      (by decide)).2 (by decide) (by decide)⟩


/-! ### The cluster context -/

/-- Claim C11. With the three package-level handles and the once-guard as explicit state:
for all namespaces `a` and `b`, once `getClients a` has initialised the handles from a
fresh state, a later `getClients b` returns without an event and leaves the state as it
was, with the deployment, pod and service handles bound to namespace `a`; so calling it
again changes nothing either. -/
theorem getClients_first_call_wins
    (NewForConfig NewForConfig2 : RestConfig → Except String Clientset)
    (kubeconfig kubeconfig2 : Option RestConfig) (a b : String) (st0 st1 : Clients)
    (evs : List Event) (hfresh : st0.deploymentOnce = false)
    (hinit : getClients NewForConfig kubeconfig a st0 = (evs, st1, Outcome.returned ())) :
    getClients NewForConfig2 kubeconfig2 b st1 = ([], st1, Outcome.returned ()) ∧
    st1.deploymentsClient.map (fun h => h.Namespace) = some a ∧
    st1.podsClient.map (fun h => h.Namespace) = some a ∧
    st1.svcClient.map (fun h => h.Namespace) = some a ∧
    getClients NewForConfig2 kubeconfig2 b
        (getClients NewForConfig2 kubeconfig2 b st1).2.1 =
      getClients NewForConfig2 kubeconfig2 b st1 := by
  unfold getClients at hinit
  rw [hfresh] at hinit
  simp only [Bool.false_eq_true, if_false] at hinit
  cases kubeconfig with
  | none => simp at hinit
  | some config =>
    cases hnew : NewForConfig config with
    | error err => simp [hnew] at hinit
    | ok clientset =>
      simp only [hnew, Prod.mk.injEq] at hinit
      obtain ⟨_, hst, _⟩ := hinit
      subst hst
      simp [getClients]

/-- Witness of `getClients_first_call_wins`: the handles are initialised for `ns1`; a
later call for `ns2` leaves the pod handle bound to `ns1`. -/
theorem getClients_first_call_wins_witness :
    (getClients acceptingNewForConfig (some scenarioConfig) "ns2"
      (getClients acceptingNewForConfig (some scenarioConfig) "ns1"
        Clients.initial).2.1).2.1.podsClient =
      some { Clientset := { Config := scenarioConfig }, Namespace := "ns1" } := by
  have h := getClients_first_call_wins acceptingNewForConfig acceptingNewForConfig
    (some scenarioConfig) (some scenarioConfig) "ns1" "ns2" Clients.initial
    (getClients acceptingNewForConfig (some scenarioConfig) "ns1" Clients.initial).2.1
    [] rfl rfl
  rw [h.1]
  rfl

/-- Claim C12, refuted as stated. When the config builder fails, `getKubeConfig` logs the
error and returns nil to its caller; it does not end the process. -/
theorem getKubeConfig_returns_nil_on_failure :
    getKubeConfig joinSlash failingBuildConfig "" "/home/dev" =
      ([Event.logError
          "Failed getting kubernetes config: stat /home/dev/.kube/config: no such file or directory"],
        Outcome.returned none) ∧
    (getKubeConfig joinSlash failingBuildConfig "" "/home/dev").2 ≠ Outcome.exited 1 := by
  decide

/-- Claim C12, amended. Whenever the config builder returns an error for the resolved
path, `getKubeConfig` logs it and returns nil, without ending the process; and whenever
the construction of the client from a configuration fails in the first call of
`getClients`, the call logs the error and ends the process with exit code 1, every handle
and the once-guard being as before. -/
theorem credential_failure (Join : List String → String)
    (BuildConfigFromFlags : String → String → Except String RestConfig)
    (kconfig home err : String)
    (NewForConfig : RestConfig → Except String Clientset)
    (config : RestConfig) (ns err2 : String) (st : Clients)
    (hbuild : BuildConfigFromFlags "" (kubeConfigPath Join kconfig home) = Except.error err)
    (hfresh : st.deploymentOnce = false)
    (hnew : NewForConfig config = Except.error err2) :
    getKubeConfig Join BuildConfigFromFlags kconfig home =
      ([Event.logError ("Failed getting kubernetes config: " ++ err)],
        Outcome.returned none) ∧
    getClients NewForConfig (some config) ns st =
      ([Event.logError ("Failed to get k8s client: " ++ err2), Event.exit 1], st,
        Outcome.exited 1) := by
  constructor
  · simp [getKubeConfig, hbuild]
  · simp [getClients, hfresh, hnew]

/-- Witness of `credential_failure`: no configuration file is found by the builder, and a
configuration that was built is rejected by the client constructor. -/
theorem credential_failure_witness :
    (getKubeConfig joinSlash failingBuildConfig "" "/home/dev").2 = Outcome.returned none ∧
    (getClients rejectingNewForConfig (some scenarioConfig) "ns1" Clients.initial).2 =
      (Clients.initial, Outcome.exited 1) :=
  have h := credential_failure joinSlash failingBuildConfig "" "/home/dev"
    "stat /home/dev/.kube/config: no such file or directory"
    rejectingNewForConfig scenarioConfig "ns1" "host must be a URL or a host:port pair"
    Clients.initial rfl rfl rfl
  ⟨by rw [h.1], by rw [h.2]⟩

/-- Claim C14, refuted as stated. When the list call of `getAllPods` fails, the error is
returned to the caller and the process is not ended. -/
theorem getAllPods_returns_list_error :
    (getAllPods acceptingNewForConfig (some scenarioConfig)
      (fun _ => Except.error "connection refused") "ns1" Clients.initial).2.2 =
      Outcome.returned (Except.error "connection refused") ∧
    (getAllPods acceptingNewForConfig (some scenarioConfig)
      (fun _ => Except.error "connection refused") "ns1" Clients.initial).1 =
      [Event.list] :=
  ⟨rfl, rfl⟩

/-- Claim C14, amended. For every namespace, when `getClients` returns inside `getAllPods`
and the list call on the pod handle fails, `getAllPods` returns the pair `(nil, err)` to
its caller; it makes one list call, and no exit event occurs. -/
theorem getAllPods_list_failure
    (NewForConfig : RestConfig → Except String Clientset)
    (kubeconfig : Option RestConfig) (listPods : PodInterface → ListResult)
    (ns err : String) (st st1 : Clients) (evs : List Event) (handle : PodInterface)
    (hclients : getClients NewForConfig kubeconfig ns st = (evs, st1, Outcome.returned ()))
    (hhandle : st1.podsClient = some handle)
    (hlist : listPods handle = Except.error err) :
    getAllPods NewForConfig kubeconfig listPods ns st =
      (evs ++ [Event.list], st1, Outcome.returned (Except.error err)) ∧
    evs = [] := by
  have hevs : evs = [] := by
    unfold getClients at hclients
    split at hclients
    · simp only [Prod.mk.injEq] at hclients
      exact hclients.1.symm
    · split at hclients
      · simp at hclients
      · split at hclients
        · simp at hclients
        · simp only [Prod.mk.injEq] at hclients
          exact hclients.1.symm
  refine ⟨?_, hevs⟩
  simp [getAllPods, hclients, hhandle, hlist]

/-- Witness of `getAllPods_list_failure`: the first call in a fresh process, the cluster
refusing the list call. -/
theorem getAllPods_list_failure_witness :
    (getAllPods acceptingNewForConfig (some scenarioConfig)
      (fun _ => Except.error "connection refused") "ns1" Clients.initial).2.2 =
      Outcome.returned (Except.error "connection refused") := by
  have h := getAllPods_list_failure acceptingNewForConfig (some scenarioConfig)
    (fun _ => Except.error "connection refused") "ns1" "connection refused"
    Clients.initial
    (getClients acceptingNewForConfig (some scenarioConfig) "ns1" Clients.initial).2.1
    [] { Clientset := { Config := scenarioConfig }, Namespace := "ns1" } rfl rfl rfl
  rw [h.1]

/-- Claim C15. The path that `getKubeConfig` hands to the config builder, as a function of
the value `e` of `KUBECONFIG` and the home directory `h`: it is `e` whenever `e` is not
empty, whatever `h` is; it is `h` joined with `.kube` and `config` when `e` is empty and
`h` is not; and it is the empty string when both are empty. -/
theorem kubeConfigPath_order (Join : List String → String)
    (BuildConfigFromFlags : String → String → Except String RestConfig) (e h : String) :
    (e ≠ "" → kubeConfigPath Join e h = e) ∧
    (e = "" → h ≠ "" → kubeConfigPath Join e h = Join [h, ".kube", "config"]) ∧
    (e = "" → h = "" → kubeConfigPath Join e h = "") ∧
    (∀ config, BuildConfigFromFlags "" (kubeConfigPath Join e h) = Except.ok config →
      getKubeConfig Join BuildConfigFromFlags e h = ([], Outcome.returned (some config))) := by
  refine ⟨?_, ?_, ?_, ?_⟩
  · intro he
    simp [kubeConfigPath, he]
  · intro he hh
    simp [kubeConfigPath, he, hh]
  · intro he hh
    simp [kubeConfigPath, he, hh]
  · intro config hc
    simp [getKubeConfig, hc]

/-- Witness of `kubeConfigPath_order`: an explicit path wins over the home directory, and
without one the path under the home directory is taken. -/
theorem kubeConfigPath_order_witness :
    kubeConfigPath joinSlash "/etc/kube.yaml" "/home/dev" = "/etc/kube.yaml" ∧
    kubeConfigPath joinSlash "" "/home/dev" = joinSlash ["/home/dev", ".kube", "config"] ∧
    kubeConfigPath joinSlash "" "" = "" :=
  ⟨(kubeConfigPath_order joinSlash failingBuildConfig "/etc/kube.yaml" "/home/dev").1
      (by decide),
   (kubeConfigPath_order joinSlash failingBuildConfig "" "/home/dev").2.1 rfl (by decide),
   (kubeConfigPath_order joinSlash failingBuildConfig "" "").2.2.1 rfl rfl⟩

/-- Claim C17. For every namespace `ns`, name `n` and list of port mappings `ports`, the
service built by `newService ns n ports` has name `n`, namespace `ns`, kind `Service`, and
its ports are `ports`: the same elements in the same order. -/
theorem newService_preserves_inputs (ns n : String) (ports : List ServicePort) :
    (newService ns n ports).ObjectMeta.Name = n ∧
    (newService ns n ports).ObjectMeta.Namespace = ns ∧
    (newService ns n ports).TypeMeta.Kind = "Service" ∧
    (newService ns n ports).Spec.Ports = ports ∧
    (newService ns n ports).Spec.Ports.length = ports.length ∧
    (∀ i : Nat, (newService ns n ports).Spec.Ports.get? i = ports.get? i) :=
  ⟨rfl, rfl, rfl, rfl, rfl, fun _ => rfl⟩

/-- Claim C20. For every namespace, name, port, image and `Verbose` setting, the pod
template of `newDeployment ns name port image` holds exactly one container, which is
`newContainer port image`, named `ktunnel` and with the given image; `hasSidecar` on the
template's pod spec answers true for that image and false for every other image. -/
theorem injected_sidecar_detected (Verbose : Bool) (ns name : String) (port : Int)
    (image : String) :
    (newDeployment Verbose ns name port image).Spec.Template.Spec.Containers =
      [newContainer Verbose port image] ∧
    (newDeployment Verbose ns name port image).Spec.Template.Spec.Containers.length = 1 ∧
    (newContainer Verbose port image).Name = "ktunnel" ∧
    (newContainer Verbose port image).Image = image ∧
    hasSidecar (newDeployment Verbose ns name port image).Spec.Template.Spec image = true ∧
    (∀ image2 : String, image2 ≠ image →
      hasSidecar (newDeployment Verbose ns name port image).Spec.Template.Spec image2 =
        false) := by
  refine ⟨rfl, rfl, rfl, rfl, ?_, ?_⟩
  · simp [hasSidecar, hasSidecarLoop, newDeployment, newContainer]
  · intro image2 hne
    simp [hasSidecar, hasSidecarLoop, newDeployment, newContainer, Ne.symm hne]

/-- Witness of `injected_sidecar_detected`: the sidecar of the reference scenario is not
taken for the default image of the tool. -/
theorem injected_sidecar_detected_witness :
    hasSidecar (newDeployment false "ns1" "tun-abc" 28688
      "example/tunnel:latest").Spec.Template.Spec "quay.io/omrikiei/ktunnel:latest" = false :=
  (injected_sidecar_detected false "ns1" "tun-abc" 28688 "example/tunnel:latest").2.2.2.2.2
    "quay.io/omrikiei/ktunnel:latest" (by decide)


/-! ### The poller: failure, history and the counter -/

/-- Once a list call fails after `k` successful ones, every longer observation of the run
is the run of `k` iterations followed by the list call, the log entry and the exit. -/
theorem waitForReadyFrom_fatal (name : String) (ti : Time) (numPods : Int)
    (env : Nat → ListResult) (err : String) (k : Nat) : ∀ s n : Nat,
    (∀ j, j < k → ∃ items, env (s + j) = Except.ok items) →
    env (s + k) = Except.error err → k < n →
    waitForReadyFrom name ti numPods env n s =
      waitForReadyFrom name ti numPods env k s ++
        [Event.list, Event.logError err, Event.exit 1] := by
  induction k with
  | zero =>
    intro s n _ herr hn
    obtain ⟨m, rfl⟩ : ∃ m, n = m + 1 := ⟨n - 1, by omega⟩
    have herr0 : env s = Except.error err := by simpa using herr
    simp [waitForReadyFrom, iteration, herr0]
  | succ k ih =>
    intro s n hok herr hn
    obtain ⟨m, rfl⟩ : ∃ m, n = m + 1 := ⟨n - 1, by omega⟩
    obtain ⟨items, h0⟩ := hok 0 (Nat.succ_pos _)
    have hs : env s = Except.ok items := by simpa using h0
    have hshift : ∀ j, j < k → ∃ items, env (s + 1 + j) = Except.ok items := by
      intro j hj
      have := hok (j + 1) (by omega)
      rwa [show s + (j + 1) = s + 1 + j by omega] at this
    have herr1 : env (s + 1 + k) = Except.error err := by
      rwa [show s + 1 + k = s + (k + 1) by omega]
    have hrec := ih (s + 1) m hshift herr1 (by omega)
    rw [waitForReadyFrom, hs]
    simp only [iteration]
    rw [hrec]
    conv_rhs => rw [waitForReadyFrom, hs]
    simp [iteration]

/-- A run of `n` iterations from iteration `s` on reads the answers `s` to `s + n - 1` only. -/
theorem waitForReadyFrom_congr (name : String) (ti : Time) (numPods : Int)
    (env env2 : Nat → ListResult) (n : Nat) : ∀ s : Nat,
    (∀ i, s ≤ i → i < s + n → env i = env2 i) →
    waitForReadyFrom name ti numPods env n s = waitForReadyFrom name ti numPods env2 n s := by
  induction n with
  | zero => intro s _; rfl
  | succ n ih =>
    intro s h
    have hs : env s = env2 s := h s (le_refl _) (by omega)
    have hrec := ih (s + 1) (fun i h1 h2 => h i (by omega) (by omega))
    rw [waitForReadyFrom, waitForReadyFrom, hs, hrec]

/-- Claim C13. In the state machine of the poller: after any number `k` of iterations
whose list calls succeeded, if the list call of the next iteration fails, that iteration
logs the error and moves to the terminal state `Fatal` by `os.Exit(1)`; it makes no write
to `readyChan`, and however long the run is observed nothing follows the exit: no later
list call and no later write. -/
theorem waitForReady_list_failure_fatal (name : String) (ti : Time) (numPods : Int)
    (env : Nat → ListResult) (err : String) (k : Nat)
    (hok : ∀ i, i < k → ∃ items, env i = Except.ok items)
    (herr : env k = Except.error err) :
    iteration name ti numPods (env k) =
      ([Event.list, Event.logError err, Event.exit 1], PollerState.Fatal) ∧
    sendCount (iteration name ti numPods (env k)).1 = 0 ∧
    (∀ n, k < n →
      waitForReady name ti numPods env n =
        waitForReady name ti numPods env k ++
          [Event.list, Event.logError err, Event.exit 1] ∧
      sendCount (waitForReady name ti numPods env n) =
        sendCount (waitForReady name ti numPods env k) ∧
      listCount (waitForReady name ti numPods env n) =
        listCount (waitForReady name ti numPods env k) + 1) := by
  have hit : iteration name ti numPods (env k) =
      ([Event.list, Event.logError err, Event.exit 1], PollerState.Fatal) := by
    rw [herr]; rfl
  refine ⟨hit, by rw [hit]; rfl, ?_⟩
  intro n hn
  have hrun : waitForReady name ti numPods env n =
      waitForReady name ti numPods env k ++
        [Event.list, Event.logError err, Event.exit 1] := by
    unfold waitForReady
    exact waitForReadyFrom_fatal name ti numPods env err k 0 n
      (fun j hj => by simpa using hok j hj) (by simpa using herr) hn
  refine ⟨hrun, ?_, ?_⟩
  · rw [hrun, sendCount_append]
    simp [sendCount]
  · rw [hrun, listCount_append]
    simp [listCount]

/-- Witness of `waitForReady_list_failure_fatal`: the second list call fails; observed for
five iterations, the run ends with the exit of the second iteration and makes no write. -/
theorem waitForReady_list_failure_fatal_witness :
    waitForReady "tun-abc" submitted 1 pendingThenError 5 =
      waitForReady "tun-abc" submitted 1 pendingThenError 1 ++
        [Event.list, Event.logError "connection refused", Event.exit 1] :=
  ((waitForReady_list_failure_fatal "tun-abc" submitted 1 pendingThenError
      "connection refused" 1
      (fun i hi => by
        have hi0 : i = 0 := by omega
        subst hi0
        exact ⟨[tunPod "Pending"], rfl⟩)
      rfl).2.2 5 (by decide)).1

/-- Claim C16. For every finite history of snapshots listed before and every current
snapshot `s`: the iteration on `s` contributes to the run exactly the events of a run that
starts with `s`, and it writes to `readyChan` exactly when the range loop entered with the
counter 0 on `s` writes. No snapshot of the history enters the decision. -/
theorem poll_independent_of_history (name : String) (ti : Time) (numPods : Int)
    (history : List (List Pod)) (s : List Pod) :
    waitForReady name ti numPods (snapshots (history ++ [s])) (history.length + 1) =
      waitForReady name ti numPods (snapshots history) history.length ++
        waitForReady name ti numPods (snapshots [s]) 1 ∧
    (Event.send true ∈ waitForReady name ti numPods (snapshots [s]) 1 ↔
      (rangeItems name ti numPods s 0).2 = true) ∧
    sendCount (waitForReady name ti numPods (snapshots (history ++ [s]))
        (history.length + 1)) =
      sendCount (waitForReady name ti numPods (snapshots history) history.length) +
        (if (rangeItems name ti numPods s 0).2 then 1 else 0) := by
  have hlast : snapshots (history ++ [s]) history.length = Except.ok s := by
    simp [snapshots, List.getD_eq_getElem?_getD]
  have hsucc := waitForReadyFrom_succ name ti numPods (snapshots (history ++ [s]))
    history.length 0 (fun j _ => ⟨_, rfl⟩)
  simp only [Nat.zero_add] at hsucc
  have hcongr := waitForReadyFrom_congr name ti numPods (snapshots (history ++ [s]))
    (snapshots history) history.length 0 (fun i _ hi => by
      have hi2 : i < history.length := by omega
      simp [snapshots, List.getD_eq_getElem?_getD, List.getElem?_append_left hi2])
  have hone : waitForReady name ti numPods (snapshots [s]) 1 =
      (iteration name ti numPods (Except.ok s)).1 := by
    simp [waitForReady, waitForReadyFrom, snapshots, iteration]
  have hrun : waitForReady name ti numPods (snapshots (history ++ [s])) (history.length + 1) =
      waitForReady name ti numPods (snapshots history) history.length ++
        waitForReady name ti numPods (snapshots [s]) 1 := by
    rw [hone]
    unfold waitForReady
    rw [hsucc, hlast, hcongr]
  refine ⟨hrun, ?_, ?_⟩
  · rw [hone]
    by_cases hw : (rangeItems name ti numPods s 0).2 = true
    · simp [iteration, poll, hw]
    · simp [iteration, poll, hw]
  · rw [hrun, sendCount_append, hone]
    by_cases hw : (rangeItems name ti numPods s 0).2 = true
    · simp [iteration, poll, hw, sendCount]
    · simp [iteration, poll, hw, sendCount]


/-- Claim C18. One poll of `waitForReady` on a snapshot with pod list `L`, for every
`int32` target: the poll writes to `readyChan` at most once, and it writes exactly when
either `numPods >= 1` and at least `numPods` pods of `L` satisfy the criteria, or
`numPods <= 0` and `L` is not empty. With `numPods <= 0` the empty list does not signal,
and a non-empty list signals on its first pod, whatever that pod is. -/
theorem poll_characterised (name : String) (ti : Time) (numPods : Int) (L : List Pod)
    (hmax : numPods ≤ 2147483647) :
    sendCount (iteration name ti numPods (Except.ok L)).1 ≤ 1 ∧
    (sendCount (iteration name ti numPods (Except.ok L)).1 = 1 ↔
      (poll name ti numPods L).2 = true) ∧
    ((poll name ti numPods L).2 = true ↔
      (1 ≤ numPods ∧ numPods ≤ (readyCount name ti L : Int)) ∨ (numPods ≤ 0 ∧ L ≠ [])) ∧
    (numPods ≤ 0 →
      (poll name ti numPods []).2 = false ∧
      ∀ (p : Pod) (rest : List Pod),
        poll name ti numPods (p :: rest) = (countStep name ti p 0, true) ∧
        counterTrace name ti numPods (p :: rest) 0 = [countStep name ti p 0]) := by
  refine ⟨?_, ?_, ?_, ?_⟩
  · by_cases hw : (poll name ti numPods L).2 = true
    · simp [iteration, hw, sendCount]
    · simp [iteration, hw, sendCount]
  · by_cases hw : (poll name ti numPods L).2 = true
    · simp [iteration, hw, sendCount]
    · simp [iteration, hw, sendCount]
  · rw [poll_wrote_iff name ti numPods hmax L]
    constructor
    · rintro ⟨hne, hc⟩
      by_cases hpos : 1 ≤ numPods
      · exact Or.inl ⟨hpos, hc⟩
      · exact Or.inr ⟨by omega, hne⟩
    · rintro (⟨hpos, hc⟩ | ⟨hnp, hne⟩)
      · refine ⟨?_, hc⟩
        rintro rfl
        simp [readyCount] at hc
        omega
      · exact ⟨hne, by omega⟩
  · intro hnp
    refine ⟨rfl, fun p rest => ?_⟩
    have h : countStep name ti p 0 ≥ numPods := by
      unfold countStep
      split
      · rw [wrapInt32_succ 0 (le_refl _) (by decide)]; omega
      · omega
    constructor
    · simp [poll, rangeItems, h]
    · simp [counterTrace, h]

/-- Witness of `poll_characterised`: with the target 0 a pod that is still pending and has
another name makes the poll write. -/
theorem poll_characterised_witness :
    poll "tun-abc" submitted 0
      [{ Name := "other", CreationTimestamp := { sec := 0, nsec := 0 },
         Status := { Phase := "Pending" } }] = (0, true) :=
  ((poll_characterised "tun-abc" submitted 0 [] (by decide)).2.2.2
    (by decide)).2
    { Name := "other", CreationTimestamp := { sec := 0, nsec := 0 },
      Status := { Phase := "Pending" } } [] |>.1

/-- Entered with a counter that is 0 or below the target, the range loop keeps the counter
between 0 and the larger of the target and 1, and each step leaves it or adds 1 to it
within the `int32` range. -/
theorem counterTrace_bounds (name : String) (ti : Time) (numPods : Int)
    (hmax : numPods ≤ 2147483647) (items : List Pod) : ∀ c : Int, 0 ≤ c →
    (c = 0 ∨ c < numPods) →
    (∀ x ∈ counterTrace name ti numPods items c, 0 ≤ x ∧ x ≤ max numPods 1) ∧
    List.Chain (fun a b => b = a ∨ (b = a + 1 ∧ a + 1 ≤ 2147483647)) c
      (counterTrace name ti numPods items c) ∧
    (rangeItems name ti numPods items c).1 =
      (counterTrace name ti numPods items c).getLastD c := by
  induction items with
  | nil =>
    intro c _ _
    simp [counterTrace, rangeItems]
  | cons p rest ih =>
    intro c h0 hc
    have hlt : c < 2147483647 := by omega
    have hstep : countStep name ti p c = c ∨ countStep name ti p c = c + 1 := by
      unfold countStep
      split
      · exact Or.inr (wrapInt32_succ c h0 hlt)
      · exact Or.inl rfl
    have hb : 0 ≤ countStep name ti p c ∧ countStep name ti p c ≤ max numPods 1 := by
      rcases hstep with h | h <;> rw [h] <;> omega
    have hrel : countStep name ti p c = c ∨
        (countStep name ti p c = c + 1 ∧ c + 1 ≤ 2147483647) := by
      rcases hstep with h | h
      · exact Or.inl h
      · exact Or.inr ⟨h, by omega⟩
    by_cases hge : countStep name ti p c ≥ numPods
    · simp only [counterTrace, rangeItems, hge, if_true]
      refine ⟨?_, ?_, ?_⟩
      · intro x hx
        simp only [List.mem_singleton] at hx
        rw [hx]; exact hb
      · exact List.Chain.cons hrel List.Chain.nil
      · simp
    · obtain ⟨ih1, ih2, ih3⟩ := ih (countStep name ti p c) hb.1 (Or.inr (by omega))
      simp only [counterTrace, rangeItems, hge, if_false]
      refine ⟨?_, ?_, ?_⟩
      · intro x hx
        rcases List.mem_cons.1 hx with h | h
        · rw [h]; exact hb
        · exact ih1 x h
      · exact List.Chain.cons hrel ih2
      · rw [ih3, List.getLastD_cons]

/-- Claim C19. The counter of a poll never overflows: for every snapshot, of any length,
and every `int32` target `numPods`, each value the counter takes during the poll lies
between 0 and the larger of `numPods` and 1; each step from one value to the next either
leaves the counter or adds 1 to it without leaving the `int32` range; and the last of
these values is the counter with which the loop is left. -/
theorem counter_never_overflows (name : String) (ti : Time) (numPods : Int)
    (items : List Pod) (hmax : numPods ≤ 2147483647) :
    (∀ x ∈ (0 : Int) :: counterTrace name ti numPods items 0,
      0 ≤ x ∧ x ≤ max numPods 1 ∧ x ≤ 2147483647) ∧
    List.Chain (fun a b => b = a ∨ (b = a + 1 ∧ a + 1 ≤ 2147483647)) 0
      (counterTrace name ti numPods items 0) ∧
    (poll name ti numPods items).1 = (counterTrace name ti numPods items 0).getLastD 0 := by
  obtain ⟨h1, h2, h3⟩ :=
    counterTrace_bounds name ti numPods hmax items 0 (le_refl _) (Or.inl rfl)
  refine ⟨?_, h2, h3⟩
  intro x hx
  rcases List.mem_cons.1 hx with h | h
  · subst h
    omega
  · have := h1 x h
    omega

/-- Witness of `counter_never_overflows`: three running pods of the reference scenario
with the target 2; the counter takes the values 1 and 2 and the loop is left with 2. -/
theorem counter_never_overflows_witness :
    counterTrace "tun-abc" submitted 2
      [tunPod PodRunning, tunPod PodRunning, tunPod PodRunning] 0 = [1, 2] ∧
    (poll "tun-abc" submitted 2
      [tunPod PodRunning, tunPod PodRunning, tunPod PodRunning]).1 =
      (counterTrace "tun-abc" submitted 2
        [tunPod PodRunning, tunPod PodRunning, tunPod PodRunning] 0).getLastD 0 :=
  ⟨by decide,
   (counter_never_overflows "tun-abc" submitted 2
      [tunPod PodRunning, tunPod PodRunning, tunPod PodRunning]
      (by decide)).2.2⟩

end Ktunnel
